import Mathlib

/-!
Shallow embedding of the Adafruit FXOS8700 accelerometer/magnetometer
driver (Adafruit_FXOS8700.cpp / Adafruit_FXOS8700.h).

The driver's in-memory configuration (`_mode`, `_range`, `_rate`, `_ratio`
fields together with the cached raw samples) is modelled as an explicit
`DriverState`.  Bus traffic is modelled as a trace of `DevAct` actions:
every register-level access the C++ functions perform is recorded in the
order it happens.  Machine bytes are `Nat` values reduced `% 256` where the
source stores them in `uint8_t`; signed 16-bit words are decoded to `Int`;
the single-precision float arithmetic of the scaling step is modelled
exactly over `ℚ` (each scale step is one multiplication of a small integer
by a constant, so the rational model captures the intended values).
-/

namespace FXOS8700

/-- Enum `fxos8700SensorMode_t`: accel-only / mag-only / hybrid operating modes. -/
inductive SensorMode
| ACCEL_ONLY_MODE
| MAG_ONLY_MODE
| HYBRID_MODE
deriving DecidableEq, Repr

/-- m_hms[1:0] register encoding of the sensor mode (0b00 / 0b01 / 0b11). -/
def SensorMode.toBits : SensorMode → Nat
| SensorMode.ACCEL_ONLY_MODE => 0
| SensorMode.MAG_ONLY_MODE => 1
| SensorMode.HYBRID_MODE => 3

/-- Enum `fxos8700ODR_t`: the eleven named output data rates. -/
inductive ODR
| ODR_800HZ
| ODR_400HZ
| ODR_200HZ
| ODR_100HZ
| ODR_50HZ
| ODR_25HZ
| ODR_12_5HZ
| ODR_6_25HZ
| ODR_3_125HZ
| ODR_1_5625HZ
| ODR_0_7813HZ
deriving DecidableEq, Repr

/-- Enum `fxos8700AccelRange_t`: accelerometer full-scale range. -/
inductive AccelRange
| ACCEL_RANGE_2G
| ACCEL_RANGE_4G
| ACCEL_RANGE_8G
deriving DecidableEq, Repr

/-- fs[1:0] register encoding of the range (0x00 / 0x01 / 0x02). -/
def AccelRange.toBits : AccelRange → Nat
| AccelRange.ACCEL_RANGE_2G => 0
| AccelRange.ACCEL_RANGE_4G => 1
| AccelRange.ACCEL_RANGE_8G => 2

/-- Enum `fxos8700MagOSR_t`: magnetometer oversampling setting 0..7. -/
inductive MagOSR
| MAG_OSR_0
| MAG_OSR_1
| MAG_OSR_2
| MAG_OSR_3
| MAG_OSR_4
| MAG_OSR_5
| MAG_OSR_6
| MAG_OSR_7
deriving DecidableEq, Repr

/-- Register encoding of the oversampling setting. -/
def MagOSR.toBits : MagOSR → Nat
| MagOSR.MAG_OSR_0 => 0
| MagOSR.MAG_OSR_1 => 1
| MagOSR.MAG_OSR_2 => 2
| MagOSR.MAG_OSR_3 => 3
| MagOSR.MAG_OSR_4 => 4
| MagOSR.MAG_OSR_5 => 5
| MagOSR.MAG_OSR_6 => 6
| MagOSR.MAG_OSR_7 => 7

open SensorMode ODR AccelRange MagOSR

/-- Table `ACCEL_MAG_ONLY_AVAILABLE_ODRs` from Adafruit_FXOS8700.h. -/
def ACCEL_MAG_ONLY_AVAILABLE_ODRs : List ODR :=
  [ODR_800HZ, ODR_400HZ, ODR_200HZ, ODR_100HZ,
   ODR_50HZ, ODR_12_5HZ, ODR_6_25HZ, ODR_1_5625HZ]

/-- Table `HYBRID_AVAILABLE_ODRs` from Adafruit_FXOS8700.h. -/
def HYBRID_AVAILABLE_ODRs : List ODR :=
  [ODR_400HZ, ODR_200HZ, ODR_100HZ, ODR_50HZ,
   ODR_25HZ, ODR_6_25HZ, ODR_3_125HZ, ODR_0_7813HZ]

/-- Table `ODR_drBits`: dr[2:0] bit patterns written to CTRL_REG1. -/
def ODR_drBits : List Nat :=
  [0x00, 0x08, 0x10, 0x18, 0x20, 0x28, 0x30, 0x38]

/-- Register addresses (fxos8700Registers_t). -/
def FXOS8700_REGISTER_STATUS : Nat := 0x00

/-- SYSMOD register address. -/
def FXOS8600_REGISTER_SYSMOD : Nat := 0x0B

/-- WHO_AM_I register address. -/
def FXOS8700_REGISTER_WHO_AM_I : Nat := 0x0D

/-- XYZ_DATA_CFG register address. -/
def FXOS8700_REGISTER_XYZ_DATA_CFG : Nat := 0x0E

/-- CTRL_REG1 register address. -/
def FXOS8700_REGISTER_CTRL_REG1 : Nat := 0x2A

/-- CTRL_REG2 register address. -/
def FXOS8700_REGISTER_CTRL_REG2 : Nat := 0x2B

/-- MCTRL_REG1 register address. -/
def FXOS8700_REGISTER_MCTRL_REG1 : Nat := 0x5B

/-- MCTRL_REG2 register address. -/
def FXOS8700_REGISTER_MCTRL_REG2 : Nat := 0x5C

/-- Expected WHO_AM_I identity byte. -/
def FXOS8700_ID : Nat := 0xC7

/-- sysmod[1:0] value reported in standby state (`STANDBY` of
`fxos8700SystemStatus_t`). -/
def STANDBY : Nat := 0x00

/-- A device access performed by the driver, recorded in program order.
`standbyToggle` stands for a call to `Adafruit_FXOS8700::standby` (itself a
bus write plus a poll loop, modelled separately by `standbyRun`). -/
inductive DevAct
| busWrite (reg val : Nat)
| busRead (reg : Nat)
| busWriteThenRead (reg n : Nat)
| sleepMs (ms : Nat)
| standbyToggle (enable : Bool)
deriving DecidableEq, Repr

/-- Struct `fxos8700RawData_t`: raw signed 16-bit triple. -/
structure RawData where
  x : Int
  y : Int
  z : Int
deriving DecidableEq, Repr

/-- The driver's in-memory state: the private configuration fields
`_mode`, `_range`, `_rate`, `_ratio`, the sensor IDs, and the public
cached raw samples `accel_raw` / `mag_raw`. -/
structure DriverState where
  mode : SensorMode
  range : AccelRange
  rate : ODR
  osr : MagOSR
  accelSensorID : Int
  magSensorID : Int
  accel_raw : RawData
  mag_raw : RawData
deriving DecidableEq, Repr

/-- Trace marker for one `standby(enable)` call inside a setter. -/
def standbyActs (enable : Bool) : List DevAct :=
  [DevAct.standbyToggle enable]

/-- Model of `Adafruit_FXOS8700::setAccelRange`: standby on, write fs bits (and clear
the lnoise bit for the 8G range), standby off, store `_range`. -/
def setAccelRange (s : DriverState) (range : AccelRange) :
    DriverState × List DevAct :=
  ({ s with range := range },
   standbyActs true
     ++ [DevAct.busWrite FXOS8700_REGISTER_XYZ_DATA_CFG range.toBits]
     ++ (if range = ACCEL_RANGE_8G
         then [DevAct.busWrite FXOS8700_REGISTER_CTRL_REG1 0]
         else [])
     ++ standbyActs false)

/-- Model of `Adafruit_FXOS8700::setSensorMode`: standby on, write m_hms bits and the
hybrid auto-increment bit, standby off, store `_mode`.  The stored rate is
not revalidated. -/
def setSensorMode (s : DriverState) (mode : SensorMode) :
    DriverState × List DevAct :=
  ({ s with mode := mode },
   standbyActs true
     ++ [DevAct.busWrite FXOS8700_REGISTER_MCTRL_REG1 mode.toBits,
         DevAct.busWrite FXOS8700_REGISTER_MCTRL_REG2
           (if mode = HYBRID_MODE then 1 else 0)]
     ++ standbyActs false)

/-- The linear search of `setOutputDataRate`: look the requested rate up in
the table for the current mode and return the matching `ODR_drBits` entry,
or `none` when the rate is not in the table. -/
def odrLookup (s : DriverState) (rate : ODR) : Option Nat :=
  if s.mode = HYBRID_MODE then
    (HYBRID_AVAILABLE_ODRs.findIdx? (fun r => r == rate)).map
      (fun i => ODR_drBits.getD i 0)
  else
    (ACCEL_MAG_ONLY_AVAILABLE_ODRs.findIdx? (fun r => r == rate)).map
      (fun i => ODR_drBits.getD i 0)

/-- Model of `Adafruit_FXOS8700::setOutputDataRate`: validate the requested rate
against the table for the current mode; on a miss return with no state
change and no bus access; on a hit, standby on, write CTRL_REG1, standby
off, store `_rate`. -/
def setOutputDataRate (s : DriverState) (rate : ODR) :
    DriverState × List DevAct :=
  match odrLookup s rate with
  | none => (s, [])
  | some odr =>
      ({ s with rate := rate },
       standbyActs true
         ++ [DevAct.busWrite FXOS8700_REGISTER_CTRL_REG1 odr]
         ++ standbyActs false)

/-- Model of `Adafruit_FXOS8700::setMagOversamplingRatio`: standby on, write the OSR
bits to MCTRL_REG1, standby off, store `_ratio`. -/
def setMagOversampling (s : DriverState) (r : MagOSR) :
    DriverState × List DevAct :=
  ({ s with osr := r },
   standbyActs true
     ++ [DevAct.busWrite FXOS8700_REGISTER_MCTRL_REG1 r.toBits]
     ++ standbyActs false)

/-- Model of `Adafruit_FXOS8700::initialize()`: the default configuration sequence run
by a successful `begin` (range 2G, lnoise + high-resolution bits, hybrid
mode, 100 Hz, OSR 7, raw samples cleared); always returns true. -/
def initDevice (s : DriverState) : Bool × DriverState × List DevAct :=
  let p1 := setAccelRange s ACCEL_RANGE_2G
  let t2 := standbyActs true
    ++ [DevAct.busWrite FXOS8700_REGISTER_CTRL_REG1 1,
        DevAct.busWrite FXOS8700_REGISTER_CTRL_REG2 2]
    ++ standbyActs false
  let p3 := setSensorMode p1.1 HYBRID_MODE
  let p4 := setOutputDataRate p3.1 ODR_100HZ
  let p5 := setMagOversampling p4.1 MAG_OSR_7
  let s5 := { p5.1 with accel_raw := ⟨0, 0, 0⟩, mag_raw := ⟨0, 0, 0⟩ }
  (true, s5, p1.2 ++ t2 ++ p3.2 ++ p4.2 ++ p5.2)

/-- Model of `Adafruit_FXOS8700::begin`: after binding the bus (`i2cOk` is the result
of `i2c_dev->begin()`), read WHO_AM_I; on an identity mismatch return false
having performed only that read; otherwise run the `initialize()` sequence.
The byte nature of the register read is modelled by `% 256`. -/
def begin (s : DriverState) (i2cOk : Bool) (whoAmI : Nat) :
    Bool × DriverState × List DevAct :=
  if !i2cOk then (false, s, [])
  else if whoAmI % 256 ≠ FXOS8700_ID then
    (false, s, [DevAct.busRead FXOS8700_REGISTER_WHO_AM_I])
  else
    let r := initDevice s
    (r.1, r.2.1, DevAct.busRead FXOS8700_REGISTER_WHO_AM_I :: r.2.2)

/-- Signed 16-bit reinterpretation of a machine word, as in the C cast
`(int16_t)w`: the word is reduced modulo 2^16 and values ≥ 2^15 wrap to the
negatives. -/
def toInt16 (w : Nat) : Int :=
  if w % 65536 < 32768 then ((w % 65536 : Nat) : Int)
  else ((w % 65536 : Nat) : Int) - 65536

/-- Arithmetic shift right by two (`>> 2` on a sign-extended int): floor
division by 4. -/
def asr2 (v : Int) : Int := Int.fdiv v 4

/-- Packing `(buffer[i] << 8) | buffer[j]` on two `uint8_t` bytes. -/
def word (msb lsb : Nat) : Nat := ((msb % 256) <<< 8) ||| (lsb % 256)

/-- Acceleration decode from `getEvent`:
`(int16_t)((msb << 8) | lsb) >> 2`. -/
def decodeAccel (msb lsb : Nat) : Int := asr2 (toInt16 (word msb lsb))

/-- Magnetometer decode from `getEvent`: `(int16_t)((msb << 8) | lsb)`. -/
def decodeMag (msb lsb : Nat) : Int := toInt16 (word msb lsb)

/-- Constant `ACCEL_MG_LSB_2G` (0.000244). -/
def ACCEL_MG_LSB_2G : ℚ := 244 / 1000000

/-- Constant `ACCEL_MG_LSB_4G` (0.000488). -/
def ACCEL_MG_LSB_4G : ℚ := 488 / 1000000

/-- Constant `ACCEL_MG_LSB_8G` (0.000976). -/
def ACCEL_MG_LSB_8G : ℚ := 976 / 1000000

/-- Constant `MAG_UT_LSB` (0.1 µT per LSB). -/
def MAG_UT_LSB : ℚ := 1 / 10

/-- Constant `SENSORS_GRAVITY_STANDARD` from the unified sensor header (9.80665). -/
def SENSORS_GRAVITY_STANDARD : ℚ := 980665 / 100000

/-- The per-LSB factor `getEvent` multiplies raw acceleration values by:
the switch on `_range` at lines 214-230 of the source. -/
def accelScale : AccelRange → ℚ
| ACCEL_RANGE_2G => ACCEL_MG_LSB_2G * SENSORS_GRAVITY_STANDARD
| ACCEL_RANGE_4G => ACCEL_MG_LSB_4G * SENSORS_GRAVITY_STANDARD
| ACCEL_RANGE_8G => ACCEL_MG_LSB_8G * SENSORS_GRAVITY_STANDARD

/-- Tag `SENSOR_TYPE_ACCELEROMETER` from the unified sensor contract. -/
def SENSOR_TYPE_ACCELEROMETER : Nat := 1

/-- Tag `SENSOR_TYPE_MAGNETIC_FIELD` from the unified sensor contract. -/
def SENSOR_TYPE_MAGNETIC_FIELD : Nat := 2

/-- Models `sizeof(sensors_event_t)`, stored in the `version` field; the
exact platform value is irrelevant to every claim. -/
def SIZEOF_SENSORS_EVENT_T : Nat := 36

/-- A populated `sensors_event_t` record (the fields `getEvent` writes). -/
structure SensorsEvent where
  version : Nat
  sensor_id : Int
  type : Nat
  timestamp : Nat
  x : ℚ
  y : ℚ
  z : ℚ
deriving DecidableEq, Repr

/-- Result of the two-pointer `getEvent`: the return value, the updated
driver state (cached raw samples), the records written through each
non-null pointer (`none` models a null pointer: nothing written), and the
bus trace. -/
structure GetEventResult where
  ret : Bool
  state : DriverState
  accelEvent : Option SensorsEvent
  magEvent : Option SensorsEvent
  acts : List DevAct
deriving Repr

/-- Model of `Adafruit_FXOS8700::getEvent(accelEvent, magEvent)`: one
write-then-read burst of 13 bytes from the STATUS register (`busOk` is the
transaction's result, which the source discards), one timestamp captured
once, then decode, cache and scale each requested half.  `buf i` is
`buffer[i]` after the burst (`% 256` models the `uint8_t` entries). -/
def getEvent2 (s : DriverState) (busOk : Bool) (buf : Nat → Nat)
    (timestamp : Nat) (wantAccel wantMag : Bool) : GetEventResult :=
  let acts := [DevAct.busWriteThenRead FXOS8700_REGISTER_STATUS 13]
  let _ := busOk
  let p1 :=
    if wantAccel then
      let rx := decodeAccel (buf 1) (buf 2)
      let ry := decodeAccel (buf 3) (buf 4)
      let rz := decodeAccel (buf 5) (buf 6)
      let sc := accelScale s.range
      ((some { version := SIZEOF_SENSORS_EVENT_T
               sensor_id := s.accelSensorID
               type := SENSOR_TYPE_ACCELEROMETER
               timestamp := timestamp
               x := rx * sc, y := ry * sc, z := rz * sc } :
          Option SensorsEvent),
       { s with accel_raw := ⟨rx, ry, rz⟩ })
    else (none, s)
  let p2 :=
    if wantMag then
      let rx := decodeMag (buf 7) (buf 8)
      let ry := decodeMag (buf 9) (buf 10)
      let rz := decodeMag (buf 11) (buf 12)
      ((some { version := SIZEOF_SENSORS_EVENT_T
               sensor_id := s.magSensorID
               type := SENSOR_TYPE_MAGNETIC_FIELD
               timestamp := timestamp
               x := rx * MAG_UT_LSB, y := ry * MAG_UT_LSB
               z := rz * MAG_UT_LSB } : Option SensorsEvent),
       { p1.2 with mag_raw := ⟨rx, ry, rz⟩ })
    else (none, p1.2)
  { ret := true, state := p2.2, accelEvent := p1.1, magEvent := p2.1,
    acts := acts }

/-- Result of the single-pointer `getEvent`: `written` is the record placed
in the caller's event (or `none` when the call wrote nothing to it). -/
structure GetEvent1Result where
  ret : Bool
  state : DriverState
  written : Option SensorsEvent
  acts : List DevAct
deriving Repr

/-- Model of `Adafruit_FXOS8700::getEvent(singleSensorEvent)`: switch on `_mode`; in
accel-only mode delegate to the combined read as the accelerometer half
(the magnetometer half goes to a stack dummy), in mag-only mode as the
magnetometer half, and in any other mode (hybrid) return false. -/
def getEvent1 (s : DriverState) (busOk : Bool) (buf : Nat → Nat)
    (timestamp : Nat) : GetEvent1Result :=
  match s.mode with
  | ACCEL_ONLY_MODE =>
      let r := getEvent2 s busOk buf timestamp true true
      { ret := r.ret, state := r.state, written := r.accelEvent,
        acts := r.acts }
  | MAG_ONLY_MODE =>
      let r := getEvent2 s busOk buf timestamp true true
      { ret := r.ret, state := r.state, written := r.magEvent,
        acts := r.acts }
  | HYBRID_MODE => { ret := false, state := s, written := none, acts := [] }

/-- The `while (sysmode.read() != STANDBY) delay(10);` loop of
`standby(true)`.  `reads n` is the n-th SYSMOD register read (the 2-bit
field is `% 4`); `fuel` bounds the number of polls; `none` means the loop
has not terminated within `fuel` polls; on termination the performed trace
(reads interleaved with the fixed 10 ms sleeps) is returned. -/
def pollUntilStandby : (Nat → Nat) → Nat → Option (List DevAct)
| _, 0 => none
| reads, fuel + 1 =>
    if reads 0 % 4 = STANDBY then
      some [DevAct.busRead FXOS8600_REGISTER_SYSMOD]
    else
      (pollUntilStandby (fun n => reads (n + 1)) fuel).map
        (fun t => DevAct.busRead FXOS8600_REGISTER_SYSMOD ::
          DevAct.sleepMs 10 :: t)

/-- The `while (sysmode.read() == STANDBY) delay(10);` loop of
`standby(false)`. -/
def pollWhileStandby : (Nat → Nat) → Nat → Option (List DevAct)
| _, 0 => none
| reads, fuel + 1 =>
    if reads 0 % 4 = STANDBY then
      (pollWhileStandby (fun n => reads (n + 1)) fuel).map
        (fun t => DevAct.busRead FXOS8600_REGISTER_SYSMOD ::
          DevAct.sleepMs 10 :: t)
    else
      some [DevAct.busRead FXOS8600_REGISTER_SYSMOD]

/-- Model of `Adafruit_FXOS8700::standby(enable)`: write the active bit of
CTRL_REG1, then busy-wait on SYSMOD with a fixed 10 ms sleep between polls
and no timeout.  `none` means the call has not returned within `fuel`
polls. -/
def standbyRun (enable : Bool) (reads : Nat → Nat) (fuel : Nat) :
    Option (List DevAct) :=
  if enable then
    (pollUntilStandby reads fuel).map
      (fun t => DevAct.busWrite FXOS8700_REGISTER_CTRL_REG1 0 :: t)
  else
    (pollWhileStandby reads fuel).map
      (fun t => DevAct.busWrite FXOS8700_REGISTER_CTRL_REG1 1 :: t)

/-- One configuration call, for reachability over the setter API. -/
inductive ConfigOp
| opSetSensorMode (m : SensorMode)
| opSetOutputDataRate (r : ODR)
| opSetAccelRange (rg : AccelRange)
| opSetMagOversampling (o : MagOSR)
deriving DecidableEq, Repr

/-- The state update of one configuration call. -/
def applyOp (s : DriverState) : ConfigOp → DriverState
| ConfigOp.opSetSensorMode m => (setSensorMode s m).1
| ConfigOp.opSetOutputDataRate r => (setOutputDataRate s r).1
| ConfigOp.opSetAccelRange rg => (setAccelRange s rg).1
| ConfigOp.opSetMagOversampling o => (setMagOversampling s o).1

/-- The constructor-default field values of `Adafruit_FXOS8700` (raw
samples start cleared here; the C++ leaves them indeterminate until
`initialize`, and no claim depends on their pre-begin value). -/
def ctorState : DriverState :=
  { mode := HYBRID_MODE, range := ACCEL_RANGE_2G, rate := ODR_100HZ,
    osr := MAG_OSR_7, accelSensorID := -1, magSensorID := -1,
    accel_raw := ⟨0, 0, 0⟩, mag_raw := ⟨0, 0, 0⟩ }

/-- The driver state after a successful `begin` (identity byte 0xC7). -/
def postBeginState : DriverState := (begin ctorState true 0xC7).2.1

/-- Run a sequence of configuration calls from the post-begin state. -/
def runOps (ops : List ConfigOp) : DriverState :=
  ops.foldl applyOp postBeginState

/-- The legality check of `setOutputDataRate`: whether the rate is in the
table for the given mode. -/
def rateLegalFor (m : SensorMode) (r : ODR) : Bool :=
  if m = HYBRID_MODE then HYBRID_AVAILABLE_ODRs.contains r
  else ACCEL_MAG_ONLY_AVAILABLE_ODRs.contains r

/-- Whether a mode is the hybrid mode (the branch `setOutputDataRate`
selects its legality table by). -/
def isHybrid (m : SensorMode) : Bool := m = HYBRID_MODE

/-- An op is category-preserving at state `s` when it is not a
`setSensorMode` call that crosses between hybrid and accel/mag-only. -/
def preservesCategory (s : DriverState) : ConfigOp → Bool
| ConfigOp.opSetSensorMode m => isHybrid m == isHybrid s.mode
| _ => true

/-- Every step of the op sequence is category-preserving at the state it
is applied in. -/
def stepsOk : DriverState → List ConfigOp → Bool
| _, [] => true
| s, op :: rest => preservesCategory s op && stepsOk (applyOp s op) rest

/-- Spec-side table (§8 of the spec): the documented milli-g-per-LSB
constant for each range, written from the spec's words, to be compared
with the `accelScale` factor extracted from the source. -/
def specMgPerLsb : AccelRange → ℚ
| ACCEL_RANGE_2G => 244 / 1000000
| ACCEL_RANGE_4G => 488 / 1000000
| ACCEL_RANGE_8G => 976 / 1000000

/-- Byte packing: `(msb << 8) | lsb` on bytes equals `msb * 256 + lsb`. -/
theorem word_eq (msb lsb : Nat) :
    word msb lsb = (msb % 256) * 256 + lsb % 256 := by
  unfold word
  rw [Nat.shiftLeft_eq, Nat.mul_comm]
  have h : lsb % 256 < 2 ^ 8 := Nat.mod_lt _ (by norm_num)
  rw [← Nat.mul_add_lt_is_or h (msb % 256)]

/-- The hybrid-table linear search succeeds exactly on table members. -/
theorem hybrid_findIdx_isSome (r : ODR) :
    (HYBRID_AVAILABLE_ODRs.findIdx? (fun x => x == r)).isSome
      = HYBRID_AVAILABLE_ODRs.contains r := by
  cases r <;> rfl

/-- The accel/mag-only-table linear search succeeds exactly on table
members. -/
theorem accelmag_findIdx_isSome (r : ODR) :
    (ACCEL_MAG_ONLY_AVAILABLE_ODRs.findIdx? (fun x => x == r)).isSome
      = ACCEL_MAG_ONLY_AVAILABLE_ODRs.contains r := by
  cases r <;> rfl

/-- A failed legality check makes the `setOutputDataRate` lookup miss. -/
theorem odrLookup_eq_none (s : DriverState) (r : ODR)
    (h : rateLegalFor s.mode r = false) : odrLookup s r = none := by
  unfold odrLookup
  unfold rateLegalFor at h
  by_cases hm : s.mode = HYBRID_MODE
  · rw [if_pos hm] at h ⊢
    cases hfind : HYBRID_AVAILABLE_ODRs.findIdx? (fun x => x == r) with
    | none => simp [hfind]
    | some i =>
        have hs := hybrid_findIdx_isSome r
        rw [hfind, h] at hs
        simp at hs
  · rw [if_neg hm] at h ⊢
    cases hfind : ACCEL_MAG_ONLY_AVAILABLE_ODRs.findIdx? (fun x => x == r) with
    | none => simp [hfind]
    | some i =>
        have hs := accelmag_findIdx_isSome r
        rw [hfind, h] at hs
        simp at hs

/-- A successful `setOutputDataRate` lookup implies the rate is legal for
the current mode. -/
theorem odrLookup_some_legal (s : DriverState) (r : ODR) (v : Nat)
    (h : odrLookup s r = some v) : rateLegalFor s.mode r = true := by
  unfold odrLookup at h
  unfold rateLegalFor
  by_cases hm : s.mode = HYBRID_MODE
  · rw [if_pos hm] at h ⊢
    cases hfind : HYBRID_AVAILABLE_ODRs.findIdx? (fun x => x == r) with
    | none => rw [hfind] at h; simp at h
    | some i =>
        have hs := hybrid_findIdx_isSome r
        rw [hfind] at hs
        simpa using hs.symm
  · rw [if_neg hm] at h ⊢
    cases hfind : ACCEL_MAG_ONLY_AVAILABLE_ODRs.findIdx? (fun x => x == r) with
    | none => rw [hfind] at h; simp at h
    | some i =>
        have hs := accelmag_findIdx_isSome r
        rw [hfind] at hs
        simpa using hs.symm

/-- Rate legality depends only on whether the mode is hybrid. -/
theorem rateLegal_cat (m m' : SensorMode) (r : ODR)
    (h : isHybrid m = isHybrid m') : rateLegalFor m r = rateLegalFor m' r := by
  cases m <;> cases m' <;> simp_all [isHybrid, rateLegalFor]

/-- One category-preserving configuration call keeps the stored rate legal
for the stored mode. -/
theorem step_preserve (s : DriverState) (op : ConfigOp)
    (h : rateLegalFor s.mode s.rate = true)
    (hc : preservesCategory s op = true) :
    rateLegalFor (applyOp s op).mode (applyOp s op).rate = true := by
  cases op with
  | opSetSensorMode m =>
      simp only [applyOp, setSensorMode]
      have hm : isHybrid m = isHybrid s.mode := by
        simpa [preservesCategory] using hc
      rw [rateLegal_cat m s.mode s.rate hm]
      exact h
  | opSetOutputDataRate r =>
      simp only [applyOp]
      cases hl : odrLookup s r with
      | none => simpa [setOutputDataRate, hl] using h
      | some v =>
          simp only [setOutputDataRate, hl]
          exact odrLookup_some_legal s r v hl
  | opSetAccelRange rg => simpa [applyOp, setAccelRange] using h
  | opSetMagOversampling o => simpa [applyOp, setMagOversampling] using h

/-- A category-preserving op sequence keeps the stored rate legal. -/
theorem steps_preserve : ∀ (ops : List ConfigOp) (s : DriverState),
    rateLegalFor s.mode s.rate = true → stepsOk s ops = true →
    rateLegalFor (ops.foldl applyOp s).mode (ops.foldl applyOp s).rate
      = true := by
  intro ops
  induction ops with
  | nil => intro s h _; simpa using h
  | cons op rest ih =>
      intro s h hok
      simp only [stepsOk, Bool.and_eq_true] at hok
      simp only [List.foldl_cons]
      exact ih (applyOp s op) (step_preserve s op h hok.1) hok.2

/-- The standby-entry poll loop never terminates while the device never
reports STANDBY. -/
theorem pollUntilStandby_none : ∀ (fuel : Nat) (reads : Nat → Nat),
    (∀ n, reads n % 4 ≠ STANDBY) → pollUntilStandby reads fuel = none := by
  intro fuel
  induction fuel with
  | zero => intro reads _; rfl
  | succ f ih =>
      intro reads h
      unfold pollUntilStandby
      rw [if_neg (h 0), ih (fun n => reads (n + 1)) (fun n => h (n + 1))]
      rfl

/-- The standby-exit poll loop never terminates while the device always
reports STANDBY. -/
theorem pollWhileStandby_none : ∀ (fuel : Nat) (reads : Nat → Nat),
    (∀ n, reads n % 4 = STANDBY) → pollWhileStandby reads fuel = none := by
  intro fuel
  induction fuel with
  | zero => intro reads _; rfl
  | succ f ih =>
      intro reads h
      unfold pollWhileStandby
      rw [if_pos (h 0), ih (fun n => reads (n + 1)) (fun n => h (n + 1))]
      rfl

/-- C1: `getEvent(accelEvent, magEvent)` returns true even when the
underlying write-then-read bus transaction fails (`busOk = false`): the
source discards the transaction's result and returns true unconditionally,
contradicting the claim (and the function's own doc comment) that failure
is surfaced as false. -/
theorem c1_getEvent_true_on_bus_failure :
    ∀ (s : DriverState) (buf : Nat → Nat) (ts : Nat) (wa wm : Bool),
      (getEvent2 s false buf ts wa wm).ret = true := by
  intro s buf ts wa wm
  rfl

/-- C2 (counterexample): it is not the case that every state reachable
from the post-begin default by configuration calls keeps the stored rate
legal for the stored mode: setting the hybrid-only rate 25 Hz and then
switching to accel-only mode leaves 25 Hz stored, which is not in the
accel/mag-only table. -/
theorem c2_counterexample :
    ¬ (∀ ops : List ConfigOp,
        rateLegalFor (runOps ops).mode (runOps ops).rate = true) := by
  intro h
  exact absurd
    (h [ConfigOp.opSetOutputDataRate ODR_25HZ,
        ConfigOp.opSetSensorMode ACCEL_ONLY_MODE])
    (by decide)

/-- C2 (amended): in every driver state reachable from the post-begin
default state by configuration calls none of which is a `setSensorMode`
that crosses between hybrid and accel/mag-only, the stored output data
rate belongs to the rate set legal for the stored sensor mode.  (A
category-crossing `setSensorMode` can break the invariant because it does
not revalidate the stored rate.) -/
theorem c2_rate_legal_for_mode (ops : List ConfigOp)
    (h : stepsOk postBeginState ops = true) :
    rateLegalFor (runOps ops).mode (runOps ops).rate = true :=
  steps_preserve ops postBeginState (by decide) h

/-- C2 witness: a concrete category-preserving sequence. -/
theorem c2_rate_legal_for_mode_witness :
    stepsOk postBeginState
        [ConfigOp.opSetOutputDataRate ODR_25HZ,
         ConfigOp.opSetSensorMode HYBRID_MODE] = true ∧
      rateLegalFor
        (runOps [ConfigOp.opSetOutputDataRate ODR_25HZ,
                 ConfigOp.opSetSensorMode HYBRID_MODE]).mode
        (runOps [ConfigOp.opSetOutputDataRate ODR_25HZ,
                 ConfigOp.opSetSensorMode HYBRID_MODE]).rate = true :=
  ⟨by decide,
   c2_rate_legal_for_mode
     [ConfigOp.opSetOutputDataRate ODR_25HZ,
      ConfigOp.opSetSensorMode HYBRID_MODE] (by decide)⟩

/-- C3: a `setOutputDataRate` request whose rate is not in the legal table
for the current mode leaves the whole driver state unchanged and performs
no device access at all (empty bus trace). -/
theorem c3_illegal_rate_noop (s : DriverState) (r : ODR)
    (h : rateLegalFor s.mode r = false) :
    setOutputDataRate s r = (s, []) := by
  unfold setOutputDataRate
  rw [odrLookup_eq_none s r h]

/-- C3 witness: 800 Hz is illegal in the post-begin hybrid mode. -/
theorem c3_illegal_rate_noop_witness :
    rateLegalFor postBeginState.mode ODR_800HZ = false ∧
      setOutputDataRate postBeginState ODR_800HZ = (postBeginState, []) :=
  ⟨by decide, c3_illegal_rate_noop postBeginState ODR_800HZ (by decide)⟩

/-- C4: `standby(enable)` busy-waits on SYSMOD with a fixed 10 ms sleep
between polls and no timeout: for a device that never reports STANDBY the
entering call never returns (no fuel bound suffices), and for a device
that always reports STANDBY the exiting call never returns. -/
theorem c4_standby_no_timeout (reads : Nat → Nat) :
    ((∀ n, reads n % 4 ≠ STANDBY) →
        ∀ fuel, standbyRun true reads fuel = none) ∧
      ((∀ n, reads n % 4 = STANDBY) →
        ∀ fuel, standbyRun false reads fuel = none) := by
  constructor
  · intro h fuel
    unfold standbyRun
    rw [if_pos rfl, pollUntilStandby_none fuel reads h]
    rfl
  · intro h fuel
    unfold standbyRun
    rw [pollWhileStandby_none fuel reads h]
    rfl

/-- C4 witness: a stream stuck in WAKE blocks entry; a stream stuck in
STANDBY blocks exit (checked at fuel 100). -/
theorem c4_standby_no_timeout_witness :
    standbyRun true (fun _ => 1) 100 = none ∧
      standbyRun false (fun _ => 0) 100 = none :=
  ⟨(c4_standby_no_timeout (fun _ => 1)).1 (fun n => by simp [STANDBY]) 100,
   (c4_standby_no_timeout (fun _ => 0)).2 (fun n => by simp [STANDBY]) 100⟩

/-- C5: the raw acceleration axis value produced by `getEvent` is the
signed 16-bit interpretation of `(msb << 8) | lsb` arithmetically shifted
right by 2; the pair 0x10, 0x00 decodes to 1024; and the event field is
that raw value multiplied by the active range's scale constant. -/
theorem c5_accel_decode (s : DriverState) (b : Bool) (buf : Nat → Nat)
    (ts : Nat) :
    ((getEvent2 s b buf ts true true).accelEvent).map SensorsEvent.x
        = some ((decodeAccel (buf 1) (buf 2) : ℚ) * accelScale s.range) ∧
      decodeAccel (buf 1) (buf 2)
        = asr2 (toInt16 ((buf 1 % 256) * 256 + buf 2 % 256)) ∧
      decodeAccel 0x10 0x00 = 1024 := by
  refine ⟨rfl, ?_, by decide⟩
  unfold decodeAccel
  rw [word_eq]

/-- C6: the raw magnetometer axis value produced by `getEvent` is the
signed 16-bit interpretation of `(msb << 8) | lsb` with no shift, scaled
by 0.1 µT per LSB; the pair 0xFF, 0xFF decodes to -1 and scales to
-0.1 µT. -/
theorem c6_mag_decode (s : DriverState) (b : Bool) (buf : Nat → Nat)
    (ts : Nat) :
    ((getEvent2 s b buf ts true true).magEvent).map SensorsEvent.x
        = some ((decodeMag (buf 7) (buf 8) : ℚ) * MAG_UT_LSB) ∧
      decodeMag (buf 7) (buf 8)
        = toInt16 ((buf 7 % 256) * 256 + buf 8 % 256) ∧
      decodeMag 0xFF 0xFF = -1 ∧
      ((getEvent2 s b (fun _ => 0xFF) ts true true).magEvent).map
          SensorsEvent.x = some (-(1 / 10)) := by
  refine ⟨rfl, ?_, by decide, ?_⟩
  · unfold decodeMag
    rw [word_eq]
  · show some ((decodeMag 0xFF 0xFF : ℚ) * MAG_UT_LSB) = some (-(1 / 10))
    norm_num [decodeMag, toInt16, word_eq, MAG_UT_LSB]

/-- C7: the per-LSB factor `getEvent` applies to raw acceleration values
equals the documented milli-g-per-LSB constant of the active range times
standard gravity 9.80665, for each of the three ranges. -/
theorem c7_accel_scale_matches_doc (s : DriverState) (b : Bool)
    (buf : Nat → Nat) (ts : Nat) :
    accelScale s.range = specMgPerLsb s.range * SENSORS_GRAVITY_STANDARD ∧
      ((getEvent2 s b buf ts true true).accelEvent).map SensorsEvent.x
        = some ((decodeAccel (buf 1) (buf 2) : ℚ)
            * (specMgPerLsb s.range * SENSORS_GRAVITY_STANDARD)) := by
  have h : accelScale s.range
      = specMgPerLsb s.range * SENSORS_GRAVITY_STANDARD := by
    cases hr : s.range <;> rfl
  exact ⟨h, by rw [← h]; rfl⟩

/-- C9: within one successful two-pointer `getEvent` call the
accelerometer and magnetometer records carry one and the same timestamp
(captured once per call), and when the millisecond clock is non-decreasing
across two consecutive calls the produced timestamps are non-decreasing. -/
theorem c9_timestamps (s₁ s₂ : DriverState) (b₁ b₂ : Bool)
    (buf₁ buf₂ : Nat → Nat) (ts₁ ts₂ : Nat) (h : ts₁ ≤ ts₂) :
    ((getEvent2 s₁ b₁ buf₁ ts₁ true true).accelEvent).map
        SensorsEvent.timestamp = some ts₁ ∧
      ((getEvent2 s₁ b₁ buf₁ ts₁ true true).magEvent).map
        SensorsEvent.timestamp = some ts₁ ∧
      ((getEvent2 s₂ b₂ buf₂ ts₂ true true).accelEvent).map
        SensorsEvent.timestamp = some ts₂ ∧
      ((getEvent2 s₂ b₂ buf₂ ts₂ true true).magEvent).map
        SensorsEvent.timestamp = some ts₂ ∧
      ts₁ ≤ ts₂ :=
  ⟨rfl, rfl, rfl, rfl, h⟩

/-- C9 witness: two concrete calls with clock values 3 and 7. -/
theorem c9_timestamps_witness :
    ((getEvent2 postBeginState true (fun _ => 0) 3 true true).accelEvent).map
        SensorsEvent.timestamp = some 3 ∧
      ((getEvent2 postBeginState true (fun _ => 0) 3 true true).magEvent).map
        SensorsEvent.timestamp = some 3 ∧
      ((getEvent2 postBeginState true (fun _ => 0) 7 true true).accelEvent).map
        SensorsEvent.timestamp = some 7 ∧
      ((getEvent2 postBeginState true (fun _ => 0) 7 true true).magEvent).map
        SensorsEvent.timestamp = some 7 ∧
      3 ≤ 7 :=
  c9_timestamps postBeginState postBeginState true true
    (fun _ => 0) (fun _ => 0) 3 7 (by decide)

/-- C8: whenever the WHO_AM_I byte differs from the expected signature
0xC7, `begin` returns false, leaves the driver state untouched, and its
bus trace is the single identity read: none of the reset/configuration
writes of `initialize()` happen. -/
theorem c8_begin_wrong_identity (s : DriverState) (id : Nat)
    (h : id % 256 ≠ FXOS8700_ID) :
    begin s true id
      = (false, s, [DevAct.busRead FXOS8700_REGISTER_WHO_AM_I]) := by
  unfold begin
  rw [if_neg (by simp), if_pos h]

/-- C8 witness: identity byte 0 is rejected. -/
theorem c8_begin_wrong_identity_witness :
    (0 : Nat) % 256 ≠ FXOS8700_ID ∧
      begin ctorState true 0
        = (false, ctorState, [DevAct.busRead FXOS8700_REGISTER_WHO_AM_I]) :=
  ⟨by decide, c8_begin_wrong_identity ctorState 0 (by decide)⟩

/-- C10: when the stored mode is hybrid, the single-pointer `getEvent`
returns false with no bus transaction, no state change and nothing written
to the caller's record; in accel-only mode it is exactly the accelerometer
half of the combined read, and in mag-only mode exactly the magnetometer
half. -/
theorem c10_single_getEvent_by_mode :
    (∀ (s : DriverState) (b : Bool) (buf : Nat → Nat) (ts : Nat),
        s.mode = HYBRID_MODE →
          getEvent1 s b buf ts
            = { ret := false, state := s, written := none, acts := [] }) ∧
      (∀ (s : DriverState) (b : Bool) (buf : Nat → Nat) (ts : Nat),
        s.mode = ACCEL_ONLY_MODE →
          getEvent1 s b buf ts
            = { ret := (getEvent2 s b buf ts true true).ret
                state := (getEvent2 s b buf ts true true).state
                written := (getEvent2 s b buf ts true true).accelEvent
                acts := (getEvent2 s b buf ts true true).acts }) ∧
      (∀ (s : DriverState) (b : Bool) (buf : Nat → Nat) (ts : Nat),
        s.mode = MAG_ONLY_MODE →
          getEvent1 s b buf ts
            = { ret := (getEvent2 s b buf ts true true).ret
                state := (getEvent2 s b buf ts true true).state
                written := (getEvent2 s b buf ts true true).magEvent
                acts := (getEvent2 s b buf ts true true).acts }) := by
  refine ⟨?_, ?_, ?_⟩ <;>
    · intro s b buf ts h
      obtain ⟨m, rg, rt, o, ai, mi, ar, mr⟩ := s
      simp only at h
      subst h
      rfl

/-- C10 witness: the three branches at concrete states (the post-begin
hybrid state and its accel-only / mag-only variants). -/
theorem c10_single_getEvent_by_mode_witness :
    getEvent1 postBeginState true (fun _ => 0) 5
        = { ret := false, state := postBeginState, written := none,
            acts := [] } ∧
      getEvent1 { postBeginState with mode := ACCEL_ONLY_MODE } true
          (fun _ => 0) 5
        = { ret := (getEvent2 { postBeginState with mode := ACCEL_ONLY_MODE }
              true (fun _ => 0) 5 true true).ret
            state := (getEvent2 { postBeginState with
              mode := ACCEL_ONLY_MODE } true (fun _ => 0) 5 true true).state
            written := (getEvent2 { postBeginState with
              mode := ACCEL_ONLY_MODE } true (fun _ => 0) 5 true
              true).accelEvent
            acts := (getEvent2 { postBeginState with
              mode := ACCEL_ONLY_MODE } true (fun _ => 0) 5 true
              true).acts } ∧
      getEvent1 { postBeginState with mode := MAG_ONLY_MODE } true
          (fun _ => 0) 5
        = { ret := (getEvent2 { postBeginState with mode := MAG_ONLY_MODE }
              true (fun _ => 0) 5 true true).ret
            state := (getEvent2 { postBeginState with
              mode := MAG_ONLY_MODE } true (fun _ => 0) 5 true true).state
            written := (getEvent2 { postBeginState with
              mode := MAG_ONLY_MODE } true (fun _ => 0) 5 true
              true).magEvent
            acts := (getEvent2 { postBeginState with
              mode := MAG_ONLY_MODE } true (fun _ => 0) 5 true
              true).acts } :=
  ⟨c10_single_getEvent_by_mode.1 postBeginState true (fun _ => 0) 5
     (by decide),
   c10_single_getEvent_by_mode.2.1 _ true (fun _ => 0) 5 rfl,
   c10_single_getEvent_by_mode.2.2 _ true (fun _ => 0) 5 rfl⟩

end FXOS8700
